import Mathlib

/-!
Verification of the bucket-management layer of a B2 cloud-storage client
(`src/bucket.rs`), shallowly embedded in Lean.  Rust strings become Lean
`String`s (Rust `String::len` is the UTF-8 byte length, i.e.
`String.utf8ByteSize`); `Option`/`Result` become `Option`/`Except`;
machine-integer casts (`as u16`, `as u32`) are modelled with explicit
`% 2^w`.  Validators that live in the crate's `validate` module (not part
of the provided sources) are modelled from the specification and marked as
such in their doc comments.
-/

set_option maxRecDepth 100000

namespace B2

/-- Validation errors raised by builders (`error.rs` collaborator; only the
constructors used by `bucket.rs` are modelled). -/
inductive ValidationError
  | MissingData (msg : String)
  | OutOfBounds (msg : String)
  | BadFormat (msg : String)
  | Incompatible (msg : String)
  deriving DecidableEq, Repr

/-- Rust `EncryptionAlgorithm`: AES256 is the only supported algorithm. -/
inductive EncryptionAlgorithm
  | Aes256
  deriving DecidableEq, Repr

/-- Rust `SelfManagedEncryption`: client-managed server-side encryption. -/
structure SelfManagedEncryption where
  algorithm : EncryptionAlgorithm
  key : String
  digest : String
  deriving DecidableEq, Repr

/-- Rust `ServerSideEncryption`: the domain encryption configuration. -/
inductive ServerSideEncryption
  | B2Managed (algorithm : EncryptionAlgorithm)
  | SelfManaged (enc : SelfManagedEncryption)
  | NoEncryption
  deriving DecidableEq, Repr

/-- Rust `serialization::Mode`: the wire discriminant
(`"SSE-B2"` / `"SSE-C"`). -/
inductive Mode
  | B2Managed
  | SelfManaged
  deriving DecidableEq, Repr

/-- Rust `serialization::InnerEncryptionConfig`: the wire encryption
record (`mode`, `algorithm`, `customerKey`, `customerKeyMd5`). -/
structure InnerEncryptionConfig where
  mode : Option Mode
  algorithm : Option EncryptionAlgorithm
  customer_key : Option String
  customer_key_md5 : Option String
  deriving DecidableEq, Repr

/-- `InnerEncryptionConfig::default()`: every field absent. -/
def InnerEncryptionConfig.default0 : InnerEncryptionConfig :=
  { mode := none, algorithm := none, customer_key := none,
    customer_key_md5 := none }

/-- Rust `impl From<ServerSideEncryption> for InnerEncryptionConfig`
(the wire encoder). -/
def InnerEncryptionConfig.fromDomain :
    ServerSideEncryption → InnerEncryptionConfig
  | .B2Managed algorithm =>
    { InnerEncryptionConfig.default0 with
        mode := some Mode.B2Managed, algorithm := some algorithm }
  | .SelfManaged enc =>
    { mode := some Mode.SelfManaged, algorithm := some enc.algorithm,
      customer_key := some enc.key, customer_key_md5 := some enc.digest }
  | .NoEncryption => InnerEncryptionConfig.default0

/-- Rust `impl TryFrom<InnerEncryptionConfig> for ServerSideEncryption`
(the wire decoder).  The Rust code tests `mode == Mode::B2Managed` with an
`else` branch commented `// Mode::SelfManaged`; the two-constructor match
below is the same case split. -/
def ServerSideEncryption.tryFromInner (other : InnerEncryptionConfig) :
    Except String ServerSideEncryption :=
  match other.mode with
  | some mode =>
    match mode with
    | Mode.B2Managed =>
      match other.algorithm with
      | none => Except.error "Missing encryption algorithm"
      | some algo => Except.ok (.B2Managed algo)
    | Mode.SelfManaged =>
      match other.algorithm with
      | none => Except.error "Missing encryption algorithm"
      | some algorithm =>
        match other.customer_key with
        | none => Except.error "Missing encryption key"
        | some key =>
          match other.customer_key_md5 with
          | none => Except.error "Missing encryption key digest"
          | some digest =>
            Except.ok (.SelfManaged ⟨algorithm, key, digest⟩)
  | none => Except.ok .NoEncryption

/-- Rust `LifecycleRule`: automatic hiding/deletion of files under a
filename prefix.  `delete_after` is the wire field
`daysFromHidingToDeleting`, `hide_after` is `daysFromUploadingToHiding`
(both `u16` in the source, modelled as `Nat`). -/
structure LifecycleRule where
  fileNamePrefix : String
  delete_after : Option Nat
  hide_after : Option Nat
  deriving DecidableEq, Repr

/-- Lexicographic comparison of character lists (the order used to sort
conflict-report keys and group members). -/
def charListLe : List Char → List Char → Bool
  | [], _ => true
  | _ :: _, [] => false
  | a :: as, b :: bs =>
    if a < b then true else if b < a then false else charListLe as bs

/-- Lexicographic `≤` on strings, via their character lists. -/
def strLe (a b : String) : Bool := charListLe a.data b.data

/-- Insert a string into a lexicographically sorted list. -/
def insertSorted (s : String) : List String → List String
  | [] => [s]
  | b :: bs => if strLe s b then s :: b :: bs else b :: insertSorted s bs

/-- Lexicographic insertion sort on strings. -/
def sortStrings : List String → List String
  | [] => []
  | a :: as => insertSorted a (sortStrings as)

/-- Whether the first character list is a (not necessarily proper) prefix
of the second. -/
def listIsPrefix : List Char → List Char → Bool
  | [], _ => true
  | _ :: _, [] => false
  | a :: as, b :: bs => a = b && listIsPrefix as bs

/-- Whether string `a` is a proper string-prefix of string `b`. -/
def properPrefixOf (a b : String) : Bool :=
  a != b && listIsPrefix a.data b.data

/-- Modelled from the spec: the lifecycle conflict grouping of §4.1 (the
crate's `validate::validated_lifecycle_rules` helper is not among the
provided sources).  For every pair (A, B) with A's prefix a proper prefix
of B's, B is recorded under A; every rule is compared against every other
rule whose prefix it is a prefix of (transitive, intentionally redundant
listing).  Keys are emitted sorted lexicographically and each group's
members are sorted lexicographically. -/
def conflictGroups (ps : List String) : List (String × List String) :=
  let sorted := sortStrings ps
  (sorted.map (fun a => (a, sorted.filter (fun b => properPrefixOf a b))))
    |>.filter (fun g => !g.2.isEmpty)

/-- Modelled from the spec: `validate::validated_lifecycle_rules` (absent
from the provided sources).  Succeeds with the rules unchanged when the
conflict map is empty, otherwise fails with the structured per-group
conflict report. -/
def validatedLifecycleRules (rules : List LifecycleRule) :
    Except (List (String × List String)) (List LifecycleRule) :=
  let groups := conflictGroups (rules.map (fun r => r.fileNamePrefix))
  if groups.isEmpty then Except.ok rules else Except.error groups

/-- Build a lifecycle rule with the given prefix and a 5-day deletion
setting (the shape used throughout the repository's tests). -/
def ruleWithPrefix (p : String) : LifecycleRule :=
  { fileNamePrefix := p, delete_after := some 5, hide_after := none }

/-- Rust `String::len()`: the UTF-8 byte length of a string. -/
def byteLen (s : String) : Nat := s.utf8ByteSize

/-- Rust `CorsOperation`: the CORS operations a rule may allow. -/
inductive CorsOperation
  | DownloadFileByName
  | DownloadFileById
  | UploadFile
  | UploadPart
  | S3Delete
  | S3Get
  | S3Head
  | S3Post
  | S3Put
  deriving DecidableEq, Repr

/-- The serde rename tag of each `CorsOperation` variant. -/
def CorsOperation.tag : CorsOperation → String
  | .DownloadFileByName => "b2_download_file_by_name"
  | .DownloadFileById => "b2_download_file_by_id"
  | .UploadFile => "b2_upload_file"
  | .UploadPart => "b2_upload_part"
  | .S3Delete => "s3_delete"
  | .S3Get => "s3_get"
  | .S3Head => "s3_head"
  | .S3Post => "s3_post"
  | .S3Put => "s3_put"

/-- Rust `serde_json::to_string(op)`: the JSON serialization of a
`CorsOperation`, i.e. its rename tag surrounded by double quotes (no tag
contains a character that JSON would escape). -/
def CorsOperation.jsonString (op : CorsOperation) : String :=
  "\"" ++ op.tag ++ "\""

/-- Rust `CorsRule`: a validated CORS rule. -/
structure CorsRule where
  cors_rule_name : String
  allowed_origins : List String
  allowed_operations : List CorsOperation
  allowed_headers : Option (List String)
  expose_headers : Option (List String)
  max_age_seconds : Nat
  deriving DecidableEq, Repr

/-- Rust `CorsRuleBuilder`: accumulating builder for a `CorsRule`. -/
structure CorsRuleBuilder where
  name : Option String
  allowed_origins : List String
  allowed_operations : List CorsOperation
  allowed_headers : Option (List String)
  expose_headers : Option (List String)
  max_age : Option Nat
  deriving DecidableEq, Repr

/-- `CorsRuleBuilder::default()`: all fields empty. -/
def CorsRuleBuilder.default0 : CorsRuleBuilder :=
  { name := none, allowed_origins := [], allowed_operations := [],
    allowed_headers := none, expose_headers := none, max_age := none }

/-- Rust `chrono::Duration`, modelled by its total length in
milliseconds.  `chrono::Duration::num_seconds` and `num_days` truncate
toward zero, which `Int.tdiv` matches. -/
structure Duration where
  ms : Int
  deriving DecidableEq, Repr

/-- `chrono::Duration::zero()`. -/
def Duration.zero : Duration := ⟨0⟩

/-- `chrono::Duration::days(n)`. -/
def Duration.days (n : Int) : Duration := ⟨n * 86400000⟩

/-- `chrono::Duration::num_seconds()`: whole seconds, truncated toward
zero. -/
def Duration.num_seconds (d : Duration) : Int := d.ms.tdiv 1000

/-- `chrono::Duration::num_days()`: whole days, truncated toward zero. -/
def Duration.num_days (d : Duration) : Int := d.ms.tdiv 86400000

/-- Rust `n as u16` on a non-negative integer value, as produced by the
truncating cast: reduction modulo 2^16. -/
def asU16 (n : Int) : Nat := (n % 65536).toNat

/-- Rust `n as u32`: reduction modulo 2^32. -/
def asU32 (n : Int) : Nat := (n % 4294967296).toNat

/-- Rust `CorsRuleBuilder::max_age`: rejects negative durations and
durations over one day, then stores `age.num_seconds() as u16`. -/
def CorsRuleBuilder.maxAge (b : CorsRuleBuilder) (age : Duration) :
    Except ValidationError CorsRuleBuilder :=
  if age.ms < (Duration.zero).ms ∨ (Duration.days 1).ms < age.ms then
    Except.error (ValidationError.OutOfBounds
      "Age must be non-negative and no more than 1 day")
  else
    Except.ok { b with max_age := some (asU16 age.num_seconds) }

/-- Rust `self.allowed_headers.iter().map(|s| s.len()).sum::<usize>()` on
an `Option<Vec<String>>`: `Option::iter` yields the inner `Vec` itself, so
`s.len()` is the NUMBER of headers in the vector, not a byte length. -/
def optionVecLenSum (o : Option (List String)) : Nat :=
  match o with
  | none => 0
  | some hs => hs.length

/-- Rust `CorsRuleBuilder::build`: checks name, max age, non-empty origin
and operation lists, then the 1000-byte budget computed exactly as the
source computes it (name bytes + origin bytes + JSON-serialized operation
lengths + the `optionVecLenSum` of each header list). -/
def CorsRuleBuilder.build (b : CorsRuleBuilder) :
    Except ValidationError CorsRule :=
  match b.name with
  | none =>
    Except.error (ValidationError.MissingData
      "The CORS rule must have a name")
  | some cors_rule_name =>
    match b.max_age with
    | none =>
      Except.error (ValidationError.MissingData
        "A maximum age for client caching must be specified")
    | some max_age_seconds =>
      if b.allowed_origins.isEmpty then
        Except.error (ValidationError.MissingData
          "At least one origin must be allowed by the CORS rule")
      else if b.allowed_operations.isEmpty then
        Except.error (ValidationError.MissingData
          "At least one operation must be specified")
      else
        let bytes : Nat := byteLen cors_rule_name
          + (b.allowed_origins.map byteLen).sum
          + (b.allowed_operations.map
              (fun c => byteLen c.jsonString)).sum
          + optionVecLenSum b.allowed_headers
          + optionVecLenSum b.expose_headers
        if bytes ≥ 1000 then
          Except.error (ValidationError.OutOfBounds
            "Maximum bytes of string data is 999")
        else
          Except.ok
            { cors_rule_name,
              allowed_origins := b.allowed_origins,
              allowed_operations := b.allowed_operations,
              allowed_headers := b.allowed_headers,
              expose_headers := b.expose_headers,
              max_age_seconds }

/-- Whether an `Except` value is a success. -/
def exceptIsOk : Except ε α → Bool
  | .ok _ => true
  | .error _ => false

/-- The aggregate byte budget as the specification words it: the sum of
the UTF-8 lengths of the rule name, every origin, every operation tag, and
every allowed and exposed header string. -/
def specStringBudget (b : CorsRuleBuilder) : Nat :=
  byteLen (b.name.getD "")
    + (b.allowed_origins.map byteLen).sum
    + (b.allowed_operations.map (fun c => byteLen c.tag)).sum
    + ((b.allowed_headers.getD []).map byteLen).sum
    + ((b.expose_headers.getD []).map byteLen).sum

/-- A 987-byte ASCII string, used to hit the byte budget exactly. -/
def longStr987 : String := String.mk (List.replicate 987 'a')

/-- A CORS builder whose combined string-field byte length is exactly
1000: name 6 bytes, one 1-byte origin, one operation tag of 6 bytes, and
one 987-byte allowed header. -/
def corsBuilder1000 : CorsRuleBuilder :=
  { name := some "abcdef", allowed_origins := ["*"],
    allowed_operations := [CorsOperation.S3Get],
    allowed_headers := some [longStr987], expose_headers := none,
    max_age := some 0 }

/-- A CORS builder whose combined string-field byte length is exactly
999: name 6 bytes, one 987-byte origin, one operation tag of 6 bytes. -/
def corsBuilder999 : CorsRuleBuilder :=
  { name := some "abcdef", allowed_origins := [longStr987],
    allowed_operations := [CorsOperation.S3Get],
    allowed_headers := none, expose_headers := none,
    max_age := some 0 }

/-- Rust `FileRetentionMode`: the B2 mode of a retention policy. -/
inductive FileRetentionMode
  | Governance
  | Compliance
  deriving DecidableEq, Repr

/-- Rust `PeriodUnit`. -/
inductive PeriodUnit
  | Days
  | Years
  deriving DecidableEq, Repr

/-- Rust `Period`: a retention duration on the wire (`duration` is a
`u32`). -/
structure Period where
  duration : Nat
  unit : PeriodUnit
  deriving DecidableEq, Repr

/-- Rust `impl From<chrono::Duration> for Period`: whole days as `u32`,
unit `Days`. -/
def Period.fromDuration (other : Duration) : Period :=
  { duration := asU32 other.num_days, unit := PeriodUnit.Days }

/-- Rust `FileRetentionPolicy`: a file's B2 retention policy.  The source
comments that `mode` and `period` must either both be set or both be
null. -/
structure FileRetentionPolicy where
  mode : Option FileRetentionMode
  period : Option Period
  deriving DecidableEq, Repr

/-- Rust `FileRetentionPolicy::new`: sets both `mode` and `period`. -/
def FileRetentionPolicy.new (mode : FileRetentionMode)
    (duration : Duration) : FileRetentionPolicy :=
  { mode := some mode, period := some (Period.fromDuration duration) }

/-- Rust `FileRetentionPolicy::default()`: both fields absent (the
"no policy" value). -/
def FileRetentionPolicy.default0 : FileRetentionPolicy :=
  { mode := none, period := none }

/-- Rust `FileLockConfiguration`: a file's retention settings as returned
by B2, wrapped in the `isClientAuthorizedToRead` permission envelope. -/
structure FileLockConfiguration where
  can_read : Bool
  file_lock_enabled : Bool
  retention : FileRetentionPolicy
  deriving DecidableEq, Repr

/-- Rust `FileLockConfiguration::lock_is_enabled`: `None` when the client
is not authorized to read the configuration. -/
def FileLockConfiguration.lockIsEnabled (c : FileLockConfiguration) :
    Option Bool :=
  if c.can_read then some c.file_lock_enabled else none

/-- Rust `FileLockConfiguration::retention_policy`: `None` when the client
is not authorized to read the configuration. -/
def FileLockConfiguration.retentionPolicy (c : FileLockConfiguration) :
    Option FileRetentionPolicy :=
  if c.can_read then some c.retention else none

/-- Rust `BucketEncryptionInfo`: the configured bucket encryption
settings, wrapped in the `isClientAuthorizedToRead` permission
envelope. -/
structure BucketEncryptionInfo where
  is_client_authorized_to_read : Bool
  value : Option ServerSideEncryption
  deriving DecidableEq, Repr

/-- Rust `BucketEncryptionInfo::can_read`. -/
def BucketEncryptionInfo.canRead (info : BucketEncryptionInfo) : Bool :=
  info.is_client_authorized_to_read

/-- Rust `BucketEncryptionInfo::settings`: returns `self.value.as_ref()`
directly (the authorization flag is not consulted). -/
def BucketEncryptionInfo.settings (info : BucketEncryptionInfo) :
    Option ServerSideEncryption :=
  info.value

/-- Rust `BucketType`: the classification of a bucket. -/
inductive BucketType
  | Public
  | Private
  | Snapshot
  deriving DecidableEq, Repr

/-- A minimal JSON value type standing for `serde_json::Value` (carried
inert through the builders). -/
inductive Json
  | null
  | bool (b : Bool)
  | num (n : Int)
  | str (s : String)
  | arr (xs : List Json)
  | obj (fields : List (String × Json))
  deriving Repr

/-- Rust `CreateBucketBuilder`. -/
structure CreateBucketBuilder where
  bucket_name : Option String
  bucket_type : Option BucketType
  bucket_info : Option Json
  cache_control : Option String
  cors_rules : Option (List CorsRule)
  file_lock_enabled : Bool
  lifecycle_rules : Option (List LifecycleRule)
  default_server_side_encryption : Option ServerSideEncryption

/-- Rust `CreateBucketBuilder::bucket_type`: rejects `Snapshot` with an
out-of-bounds error before any assignment; otherwise records the type. -/
def CreateBucketBuilder.bucketType (b : CreateBucketBuilder)
    (typ : BucketType) : Except ValidationError CreateBucketBuilder :=
  match typ with
  | BucketType.Snapshot =>
    Except.error (ValidationError.OutOfBounds
      "Bucket type must be either Public or Private")
  | _ => Except.ok { b with bucket_type := some typ }

/-- Rust `UpdateBucketBuilder`. -/
structure UpdateBucketBuilder where
  bucket_id : Option String
  bucket_type : Option BucketType
  bucket_info : Option Json
  cache_control : Option String
  cors_rules : Option (List CorsRule)
  default_retention : Option FileRetentionPolicy
  default_server_side_encryption : Option ServerSideEncryption
  lifecycle_rules : Option (List LifecycleRule)
  if_revision_is : Option Nat

/-- Rust `UpdateBucketBuilder::bucket_type`: rejects `Snapshot` with an
out-of-bounds error before any assignment; otherwise records the type. -/
def UpdateBucketBuilder.bucketType (b : UpdateBucketBuilder)
    (typ : BucketType) : Except ValidationError UpdateBucketBuilder :=
  match typ with
  | BucketType.Snapshot =>
    Except.error (ValidationError.OutOfBounds
      "Bucket type must be either Public or Private")
  | _ => Except.ok { b with bucket_type := some typ }

/-- The classification of a single validated origin string. -/
inductive OriginClass
  | universal
  | schemeOnly (scheme : String)
  | full (scheme : String) (host : String) (port : Option Nat)
  deriving DecidableEq, Repr

/-- Number of `*` characters in a character list. -/
def countStar (cs : List Char) : Nat :=
  (cs.filter (fun c => c = '*')).length

/-- Split a character list at the first occurrence of `"://"`, returning
the parts before and after it when present. -/
def splitSchemeAux : List Char → Option (List Char × List Char)
  | [] => none
  | ':' :: '/' :: '/' :: rest => some ([], rest)
  | c :: rest =>
    (splitSchemeAux rest).map (fun p => (c :: p.1, p.2))

/-- Split a character list at the first `':'`, returning the part before
it and, when a colon is present, the part after it. -/
def splitColon : List Char → List Char × Option (List Char)
  | [] => ([], none)
  | ':' :: rest => ([], some rest)
  | c :: rest =>
    let p := splitColon rest
    (c :: p.1, p.2)

/-- Decimal digits to a natural number. -/
def digitsToNat (cs : List Char) : Nat :=
  cs.foldl (fun acc c => acc * 10 + (c.toNat - 48)) 0

/-- The scheme allow-list (the specification requires an explicit
allow-list of at minimum http/https; the repository's tests reject
`ftp`). -/
def schemeAllowed (scheme : List Char) : Bool :=
  scheme = "http".data || scheme = "https".data

/-- Modelled from the spec: §4.2 `classify`, the single-origin pattern
validator inside `validate::validated_origins` (absent from the provided
sources).  Rejects more than one `*`; classifies a lone `*` as universal;
a string with no `://` and no `*` as scheme-only when it is an allowed
alphabetic scheme token; otherwise requires the `scheme://host[:port]`
shape with `*` only in the host and a numeric port. -/
def classifyOrigin (s : String) : Except ValidationError OriginClass :=
  let cs := s.data
  if countStar cs > 1 then
    Except.error (ValidationError.BadFormat
      "An origin can contain at most one wildcard")
  else if cs = ['*'] then
    Except.ok OriginClass.universal
  else
    match splitSchemeAux cs with
    | none =>
      if cs ≠ [] && cs.all Char.isAlpha && schemeAllowed cs then
        Except.ok (OriginClass.schemeOnly (String.mk cs))
      else
        Except.error (ValidationError.BadFormat
          "Origin must be a scheme or have the form scheme://host")
    | some (scheme, rest) =>
      if ! schemeAllowed scheme then
        Except.error (ValidationError.BadFormat
          "Unknown or invalid scheme")
      else
        let hp := splitColon rest
        if hp.1.isEmpty then
          Except.error (ValidationError.BadFormat
            "Origin host must not be empty")
        else
          match hp.2 with
          | none =>
            Except.ok (OriginClass.full (String.mk scheme)
              (String.mk hp.1) none)
          | some port =>
            if port ≠ [] && port.all Char.isDigit then
              Except.ok (OriginClass.full (String.mk scheme)
                (String.mk hp.1) (some (digitsToNat port)))
            else
              Except.error (ValidationError.BadFormat
                "Origin port is malformed")

/-- The scheme named by a classified origin, when it has one. -/
def OriginClass.schemeOf : OriginClass → Option String
  | .universal => none
  | .schemeOnly scheme => some scheme
  | .full scheme _ _ => some scheme

/-- Whether a classified origin is the wildcard-host form of some scheme
(`scheme://*` with any port). -/
def OriginClass.isWildcardHost : OriginClass → Bool
  | .full _ host _ => host = "*"
  | _ => false

/-- Count the entries of a classification list sharing a given scheme. -/
def countScheme (classes : List OriginClass) (scheme : String) : Nat :=
  (classes.filter (fun c => c.schemeOf = some scheme)).length

/-- Count the scheme-only entries for a given scheme. -/
def countSchemeOnly (classes : List OriginClass) (scheme : String) : Nat :=
  (classes.filter (fun c => c = OriginClass.schemeOnly scheme)).length

/-- Modelled from the spec: the list-level origin checks of §4.2 and the
documented examples (§8).  A universal entry must be the sole entry; at
most one scheme-only entry per scheme; a wildcard-host entry
(`scheme://*`, any port) conflicts with every other entry of the same
scheme (scheme-only or full) — this is the rule behind the documented
rejection of `https://*:8765` together with `https://www.example.com:4545`
and acceptance when the schemes differ. -/
def originListOk (classes : List OriginClass) : Bool :=
  (decide (¬ (OriginClass.universal ∈ classes ∧ classes.length > 1)))
    && classes.all (fun c =>
        match c with
        | OriginClass.schemeOnly scheme =>
          countSchemeOnly classes scheme ≤ 1
        | _ => true)
    && classes.all (fun c =>
        if c.isWildcardHost then
          match c.schemeOf with
          | some scheme => countScheme classes scheme ≤ 1
          | none => true
        else true)

/-- Classify every origin in the list, failing on the first per-item
error. -/
def classifyAll : List String → Except ValidationError (List OriginClass)
  | [] => Except.ok []
  | s :: ss =>
    match classifyOrigin s with
    | Except.error e => Except.error e
    | Except.ok c =>
      match classifyAll ss with
      | Except.error e => Except.error e
      | Except.ok cs => Except.ok (c :: cs)

/-- Modelled from the spec: `validate::validated_origins` (absent from the
provided sources).  Per-item classification first, then the list-level
mutual-exclusion checks; on success the origin list is returned in input
order. -/
def validatedOrigins (items : List String) :
    Except ValidationError (List String) :=
  match classifyAll items with
  | Except.error e => Except.error e
  | Except.ok classes =>
    if originListOk classes then
      Except.ok items
    else
      Except.error (ValidationError.Incompatible
        "Conflicting origins in the origin list")

end B2

namespace B2

/-- C1: encoding any domain encryption configuration to the wire record and
decoding it back yields the original value. -/
theorem encryption_roundtrip (x : ServerSideEncryption) :
    ServerSideEncryption.tryFromInner (InnerEncryptionConfig.fromDomain x)
      = Except.ok x := by
  cases x <;> rfl

/-- C2: a wire record whose `mode` is `"SSE-C"` but whose `customerKey` is
absent always decodes to an error (in particular never to
`NoEncryption`). -/
theorem sse_c_missing_key_errors (c : InnerEncryptionConfig)
    (hmode : c.mode = some Mode.SelfManaged)
    (hkey : c.customer_key = none) :
    ∃ msg, ServerSideEncryption.tryFromInner c = Except.error msg := by
  rcases c with ⟨m, a, k, d⟩
  simp only at hmode hkey
  subst hmode
  subst hkey
  cases a with
  | none => exact ⟨"Missing encryption algorithm", rfl⟩
  | some algo => exact ⟨"Missing encryption key", rfl⟩

/-- Witness for C2 at a concrete wire record: `mode = "SSE-C"`, algorithm
present, `customerKey` absent. -/
theorem sse_c_missing_key_errors_witness :
    ∃ msg, ServerSideEncryption.tryFromInner
      { mode := some Mode.SelfManaged,
        algorithm := some EncryptionAlgorithm.Aes256,
        customer_key := none,
        customer_key_md5 := some "ENCODED-DIGEST" } = Except.error msg :=
  sse_c_missing_key_errors
    { mode := some Mode.SelfManaged,
      algorithm := some EncryptionAlgorithm.Aes256,
      customer_key := none,
      customer_key_md5 := some "ENCODED-DIGEST" } rfl rfl

/-- C3 counterexample: a wire record with the discriminant absent but a
companion field (`algorithm`) present decodes successfully to
`NoEncryption` — it does not fail with a data-integrity error as claimed. -/
theorem absent_mode_with_companion_decodes_ok :
    ServerSideEncryption.tryFromInner
      { mode := none, algorithm := some EncryptionAlgorithm.Aes256,
        customer_key := none, customer_key_md5 := none }
      = Except.ok ServerSideEncryption.NoEncryption := rfl

/-- C3 (amended): whenever the discriminant field is absent, decoding
returns the no-encryption value, regardless of which companion fields are
present. -/
theorem absent_mode_decodes_no_encryption (c : InnerEncryptionConfig)
    (hmode : c.mode = none) :
    ServerSideEncryption.tryFromInner c
      = Except.ok ServerSideEncryption.NoEncryption := by
  unfold ServerSideEncryption.tryFromInner
  rw [hmode]

/-- Witness for the amended C3 at a concrete wire record carrying a
companion field with no discriminant. -/
theorem absent_mode_decodes_no_encryption_witness :
    ServerSideEncryption.tryFromInner
      { mode := none, algorithm := none,
        customer_key := some "MY-ENCODED-KEY", customer_key_md5 := none }
      = Except.ok ServerSideEncryption.NoEncryption :=
  absent_mode_decodes_no_encryption
    { mode := none, algorithm := none,
      customer_key := some "MY-ENCODED-KEY", customer_key_md5 := none } rfl

/-- C4: on both documented example prefix sets, lifecycle-rule validation
fails and the conflict report is exactly the documented grouped mapping
(keys in lexicographic order, each group sorted, with the intentionally
redundant nested listing in the second example). -/
theorem lifecycle_conflict_examples :
    validatedLifecycleRules
        (["Docs/Photos/", "Legal/", "Legal/Taxes/", "Archive/",
          "Archive/Temporary/"].map ruleWithPrefix)
      = Except.error
          [("Archive/", ["Archive/Temporary/"]),
           ("Legal/", ["Legal/Taxes/"])]
    ∧ validatedLifecycleRules
        (["Docs/Photos/", "Docs/", "Docs/Documents/", "Legal/Taxes/",
          "Docs/Photos/Vacations/", "Archive/"].map ruleWithPrefix)
      = Except.error
          [("Docs/",
            ["Docs/Documents/", "Docs/Photos/", "Docs/Photos/Vacations/"]),
           ("Docs/Photos/", ["Docs/Photos/Vacations/"])] := by
  exact ⟨rfl, rfl⟩

/-- C5: the byte budget is not computed from the combined string-field
byte length.  A rule whose combined string-field byte length is exactly
1000 (987 of it in an allowed header) builds successfully, because the
source sums the NUMBER of headers instead of their byte lengths; and a
rule whose combined length is exactly 999 (with no headers) is rejected,
because the source counts the two JSON quote characters around each
serialized operation tag. -/
theorem cors_budget_miscount :
    specStringBudget corsBuilder1000 = 1000
    ∧ exceptIsOk corsBuilder1000.build = true
    ∧ specStringBudget corsBuilder999 = 999
    ∧ corsBuilder999.build
        = Except.error (ValidationError.OutOfBounds
            "Maximum bytes of string data is 999") := by
  refine ⟨?_, rfl, ?_, rfl⟩ <;> rfl

/-- C6: `BucketEncryptionInfo::settings` ignores the authorization flag:
on an envelope with `isClientAuthorizedToRead = false` that carries a
value, it returns that value rather than `None`, contradicting its own
documentation (the `FileLockConfiguration` accessors do honor the flag,
as the last two conjuncts show). -/
theorem settings_ignores_authorization :
    BucketEncryptionInfo.canRead
        { is_client_authorized_to_read := false,
          value := some ServerSideEncryption.NoEncryption } = false
    ∧ BucketEncryptionInfo.settings
        { is_client_authorized_to_read := false,
          value := some ServerSideEncryption.NoEncryption }
      = some ServerSideEncryption.NoEncryption
    ∧ FileLockConfiguration.lockIsEnabled
        { can_read := false, file_lock_enabled := true,
          retention := FileRetentionPolicy.default0 } = none
    ∧ FileLockConfiguration.retentionPolicy
        { can_read := false, file_lock_enabled := true,
          retention := FileRetentionPolicy.default0 } = none := by
  exact ⟨rfl, rfl, rfl, rfl⟩

/-- C7: the origin list `["https://*:8765", "https://www.example.com:4545"]`
is rejected (a wildcard-host entry conflicts with another entry of the
same scheme) while `["https://*:8765", "http://www.example.com:4545"]`
is accepted (the schemes differ). -/
theorem origin_wildcard_scheme_conflict :
    exceptIsOk (validatedOrigins
        ["https://*:8765", "https://www.example.com:4545"]) = false
    ∧ validatedOrigins ["https://*:8765", "http://www.example.com:4545"]
      = Except.ok ["https://*:8765", "http://www.example.com:4545"] := by
  exact ⟨rfl, rfl⟩

/-- C8: `CorsRuleBuilder::max_age` accepts a duration of exactly one day
(86400 seconds), but the stored `max_age_seconds` is the `u16`-wrapped
value 20864, not 86400 as the claim requires. -/
theorem max_age_one_day_wraps :
    (Duration.days 1).num_seconds = 86400
    ∧ CorsRuleBuilder.maxAge CorsRuleBuilder.default0 (Duration.days 1)
        = Except.ok
            { CorsRuleBuilder.default0 with max_age := some 20864 } := by
  exact ⟨rfl, rfl⟩

/-- C9: every retention policy obtainable through the public constructors
satisfies the both-or-neither invariant: `FileRetentionPolicy::new`
always sets both `mode` and `period`, and the `Default` value has both
absent (the valid "no policy" value). -/
theorem retention_constructors_both_or_neither :
    (∀ (m : FileRetentionMode) (d : Duration),
      (FileRetentionPolicy.new m d).mode.isSome = true
        ∧ (FileRetentionPolicy.new m d).period.isSome = true)
    ∧ FileRetentionPolicy.default0.mode = none
    ∧ FileRetentionPolicy.default0.period = none :=
  ⟨fun _ _ => ⟨rfl, rfl⟩, rfl, rfl⟩

/-- C10: both bucket builders reject the `Snapshot` bucket type with an
out-of-bounds validation error (the error return carries no builder, so
no builder with the type set is produced), and accept `Public` and
`Private`, recording the given type. -/
theorem bucket_type_rejects_snapshot :
    ∀ (cb : CreateBucketBuilder) (ub : UpdateBucketBuilder),
      cb.bucketType BucketType.Snapshot
          = Except.error (ValidationError.OutOfBounds
              "Bucket type must be either Public or Private")
      ∧ cb.bucketType BucketType.Public
          = Except.ok { cb with bucket_type := some BucketType.Public }
      ∧ cb.bucketType BucketType.Private
          = Except.ok { cb with bucket_type := some BucketType.Private }
      ∧ ub.bucketType BucketType.Snapshot
          = Except.error (ValidationError.OutOfBounds
              "Bucket type must be either Public or Private")
      ∧ ub.bucketType BucketType.Public
          = Except.ok { ub with bucket_type := some BucketType.Public }
      ∧ ub.bucketType BucketType.Private
          = Except.ok { ub with bucket_type := some BucketType.Private } :=
  fun _ _ => ⟨rfl, rfl, rfl, rfl, rfl, rfl⟩

end B2
